import Mathlib

/-!
Shallow embedding of the cipher-pol conversational relay
(`app/agents/chat_agent.py`, `app/llms/llm_provider.py`,
`app/functions/search.py`, `app/models/tavily.py`,
`app/services/slack_service.py`).

Python dicts become association lists over `String` keys; in-place
mutation becomes explicit state passing on `ChatAgentState`; fallible
construction (`LLMProvider.get_llm`, `ReActAgent.from_llm`) returns
`Option` / takes an outcome oracle; calls into the external llama-index
agent are modelled by an oracle describing the reply (or raised
exception) and the messages the agent appended to the shared memory.
Logging (`print`, `utils/logger.py`) is a side effect with no bearing on
state or results and is not modelled.
-/

namespace CipherPol

/-! ## Python dict operations (association lists) -/

/-- Python `d.get(k)` (no default): first matching key. -/
def dget {α : Type} : List (String × α) → String → Option α
  | [], _ => none
  | (k2, v) :: rest, k => if k2 = k then some v else dget rest k

/-- Python `d[k] = v`: replace in place, or append when absent. -/
def dset {α : Type} : List (String × α) → String → α → List (String × α)
  | [], k, v => [(k, v)]
  | (k2, v2) :: rest, k, v =>
      if k2 = k then (k, v) :: rest else (k2, v2) :: dset rest k v

/-- Python `d.pop(k, None)`: remove every entry for `k`. -/
def dpop {α : Type} : List (String × α) → String → List (String × α)
  | [], _ => []
  | (k2, v2) :: rest, k =>
      if k2 = k then dpop rest k else (k2, v2) :: dpop rest k

theorem dget_dset_self {α : Type} (l : List (String × α)) (k : String) (v : α) :
    dget (dset l k v) k = some v := by
  induction l with
  | nil => simp [dget, dset]
  | cons hd tl ih =>
    obtain ⟨k2, v2⟩ := hd
    by_cases h : k2 = k
    · simp [dget, dset, h]
    · simp [dget, dset, h, ih]

theorem dget_dset_other {α : Type} (l : List (String × α)) (k k2 : String) (v : α)
    (h : k2 ≠ k) : dget (dset l k v) k2 = dget l k2 := by
  induction l with
  | nil => simp [dget, dset, Ne.symm h]
  | cons hd tl ih =>
    obtain ⟨k3, v3⟩ := hd
    by_cases h3 : k3 = k
    · subst h3
      simp [dget, dset, Ne.symm h]
    · by_cases h4 : k3 = k2 <;> simp [dget, dset, h3, h4, h, ih]

theorem dget_dpop_self {α : Type} (l : List (String × α)) (k : String) :
    dget (dpop l k) k = none := by
  induction l with
  | nil => simp [dget, dpop]
  | cons hd tl ih =>
    obtain ⟨k2, v2⟩ := hd
    by_cases h : k2 = k <;> simp [dget, dpop, h, ih]

/-! ## Python string helpers -/

/-- Python `str.lower()`: every character lower-cased. -/
def pyLower (s : String) : String :=
  ⟨s.data.map Char.toLower⟩

/-- Python `str.capitalize()`: first character upper-cased, the rest
lower-cased. -/
def pyCapitalize (s : String) : String :=
  ⟨(s.data.take 1).map Char.toUpper ++ (s.data.drop 1).map Char.toLower⟩

/-- Python truthiness of an optional string (`None` and `""` are falsy). -/
def truthyOpt : Option String → Bool
  | none => false
  | some s => s ≠ ""

/-! ## LLM backends (`llms/llm_provider.py`) -/

/-- A live backend handle. The constructor records which provider the
handle was built for: `LLMProvider.get_llm` constructs an `OpenAI`
instance for `"openai"` and a `Gemini` instance for `"gemini"`. -/
inductive LLM
  | openai
  | gemini
deriving DecidableEq, Repr

/-- The provider name an `LLM` handle was constructed for. -/
def LLM.constructedFor : LLM → String
  | .openai => "openai"
  | .gemini => "gemini"

/-- State of `LLMProvider.__init__`: credentials read from the environment,
plus oracles for whether each backend constructor succeeds (the `try`
blocks around `OpenAI(...)` / `Gemini(...)`). -/
structure LLMProvider where
  openai_api_key : Option String
  google_application_credentials : Option String
  openai_init_ok : Bool
  gemini_init_ok : Bool
deriving DecidableEq, Repr

/-- Model resolution `LLMProvider.get_llm(model_provider)`: lower-case the name, build the
matching backend when its credentials are present and construction does
not raise; otherwise (missing credentials, constructor failure, unknown
provider) return `None`. -/
def LLMProvider.get_llm (p : LLMProvider) (model_provider : String) : Option LLM :=
  let provider_lower := pyLower model_provider
  if provider_lower = "openai" then
    match p.openai_api_key with
    | none => none
    | some _ => if p.openai_init_ok then some .openai else none
  else if provider_lower = "gemini" then
    match p.google_application_credentials with
    | none => none
    | some _ => if p.gemini_init_ok then some .gemini else none
  else none

/-! ## Conversation memory (`ChatMemoryBuffer`) -/

inductive MessageRole
  | user
  | assistant
deriving DecidableEq, Repr

structure ChatMessage where
  role : MessageRole
  content : String
deriving DecidableEq, Repr

/-- A `ChatMemoryBuffer`; `allocId` models Python object identity: each
`ChatMemoryBuffer.from_defaults` call yields a fresh id, so two buffers
are the same object exactly when their ids coincide. `put` appends;
the token limit only truncates the view handed to the model, never the
stored history. -/
structure ChatMemoryBuffer where
  allocId : Nat
  token_limit : Nat
  chat_history : List ChatMessage
deriving DecidableEq, Repr

def ChatMemoryBuffer.put (m : ChatMemoryBuffer) (msg : ChatMessage) : ChatMemoryBuffer :=
  { m with chat_history := m.chat_history ++ [msg] }

/-- A `ReActAgent`, as built by `ReActAgent.from_llm`: it holds the llm
handle and a reference (`memoryId` = `allocId`) to the shared
`ChatMemoryBuffer` it was constructed with. -/
structure ReActAgent where
  llm : LLM
  memoryId : Nat
deriving DecidableEq, Repr

/-! ## ChatAgent state (`agents/chat_agent.py`) -/

/-- The mutable fields of a `ChatAgent` instance, plus the injected
`llm_provider` and an allocation counter backing `ChatMemoryBuffer`
object identities. Tools are irrelevant to state and results and are
not modelled. -/
structure ChatAgentState where
  llm_provider : LLMProvider
  user_active_llm : List (String × LLM)
  user_active_model_name : List (String × String)
  conversation_memory : List (String × ChatMemoryBuffer)
  conversation_agent_details : List (String × (ReActAgent × String))
  default_model_name : String
  next_alloc_id : Nat
deriving DecidableEq, Repr

/-- `ChatAgent.__init__`: empty caches; the default model name comes from
`os.getenv("DEFAULT_MODEL", "gemini")`. -/
def ChatAgentState.init (p : LLMProvider) (default_model : String) : ChatAgentState :=
  { llm_provider := p
    user_active_llm := []
    user_active_model_name := []
    conversation_memory := []
    conversation_agent_details := []
    default_model_name := default_model
    next_alloc_id := 0 }

/-- Method `ChatAgent._get_or_create_memory(conversation_id)`. -/
def getOrCreateMemory (s : ChatAgentState) (conversation_id : String) :
    ChatMemoryBuffer × ChatAgentState :=
  match dget s.conversation_memory conversation_id with
  | some m => (m, s)
  | none =>
      let m : ChatMemoryBuffer :=
        { allocId := s.next_alloc_id, token_limit := 3900, chat_history := [] }
      (m, { s with
              conversation_memory := dset s.conversation_memory conversation_id m
              next_alloc_id := s.next_alloc_id + 1 })

/-- Method `ChatAgent._get_llm_for_user(user_id)`.

Mirrors the source exactly: `preferred_model_name` is the user's entry or
the default; the reload guard is
`not llm or self.user_active_model_name.get(user_id) != preferred_model_name`
(note the right disjunct compares the dict entry against a value just read
from the same dict, so it only fires when the user has no name entry);
on resolution failure for a non-default name the default is tried and the
actually loaded name recorded; both caches are updated on success. -/
def getLlmForUser (s : ChatAgentState) (user_id : String) :
    Option LLM × String × ChatAgentState :=
  let preferred_model_name :=
    (dget s.user_active_model_name user_id).getD s.default_model_name
  let llm0 := dget s.user_active_llm user_id
  if llm0.isNone ∨ dget s.user_active_model_name user_id ≠ some preferred_model_name then
    match s.llm_provider.get_llm preferred_model_name with
    | some llm =>
        (some llm, preferred_model_name,
          { s with
              user_active_llm := dset s.user_active_llm user_id llm
              user_active_model_name :=
                dset s.user_active_model_name user_id preferred_model_name })
    | none =>
        if preferred_model_name ≠ s.default_model_name then
          match s.llm_provider.get_llm s.default_model_name with
          | some llm =>
              (some llm, s.default_model_name,
                { s with
                    user_active_llm := dset s.user_active_llm user_id llm
                    user_active_model_name :=
                      dset s.user_active_model_name user_id s.default_model_name })
          | none => (none, s.default_model_name, s)
        else (none, preferred_model_name, s)
  else (llm0, preferred_model_name, s)

/-- Method `ChatAgent._get_or_create_agent(conversation_id, user_id)`.

`react_from_llm_ok` is the oracle for whether `ReActAgent.from_llm`
raises (the `try`/`except` around construction). On construction failure
the function returns `none` without touching
`conversation_agent_details`; only a successful construction stores the
new `(agent, model_name)` pair. -/
def getOrCreateAgent (react_from_llm_ok : Bool) (s : ChatAgentState)
    (conversation_id user_id : String) : Option ReActAgent × ChatAgentState :=
  match getLlmForUser s user_id with
  | (none, _, s1) => (none, s1)
  | (some user_llm, user_preferred_model_name, s1) =>
      let current_agent_details := dget s1.conversation_agent_details conversation_id
      let agent_instance : Option ReActAgent :=
        match current_agent_details with
        | some (a, agent_model_name) =>
            if agent_model_name ≠ user_preferred_model_name then none else some a
        | none => none
      match agent_instance with
      | some a => (some a, s1)
      | none =>
          let (memory, s2) := getOrCreateMemory s1 conversation_id
          if react_from_llm_ok then
            let a : ReActAgent := { llm := user_llm, memoryId := memory.allocId }
            (some a,
              { s2 with
                  conversation_agent_details :=
                    dset s2.conversation_agent_details conversation_id
                      (a, user_preferred_model_name) })
          else (none, s2)

/-- Method `ChatAgent.switch_model(user_id, model_name)`: probe-load via
`_get_llm_for_user`, tentatively write the new preference, call
`_get_llm_for_user` again, confirm when it returned an llm under exactly
the requested name, otherwise restore the prior preference (dropping the
entries entirely when there was none). -/
def switch_model (s : ChatAgentState) (user_id model_name : String) :
    String × ChatAgentState :=
  let (_, _, s1) := getLlmForUser s user_id
  let original_model_name := dget s1.user_active_model_name user_id
  let s2 := { s1 with
                user_active_model_name :=
                  dset s1.user_active_model_name user_id model_name }
  let (new_llm, actual_loaded_model_name, s3) := getLlmForUser s2 user_id
  if new_llm.isSome ∧ actual_loaded_model_name = model_name then
    ("Your preferred model is now " ++ pyCapitalize model_name ++
       ". This will apply to new conversations and update existing ones on next use.",
     s3)
  else
    let s4 :=
      match original_model_name with
      | some o =>
          { s3 with
              user_active_model_name := dset s3.user_active_model_name user_id o }
      | none =>
          { s3 with
              user_active_model_name := dpop s3.user_active_model_name user_id
              user_active_llm := dpop s3.user_active_llm user_id }
    let current_model_for_user :=
      (dget s4.user_active_model_name user_id).getD s4.default_model_name
    ("Sorry, I couldn\x27t switch to " ++ model_name ++ ". Staying on " ++
       pyCapitalize current_model_for_user ++ ".",
     s4)

/-- Method `ChatAgent.get_current_model_info(user_id)`. -/
def get_current_model_info (s : ChatAgentState) (user_id : String) : String :=
  let model_name := (dget s.user_active_model_name user_id).getD s.default_model_name
  "Your preferred model is " ++ pyCapitalize model_name ++
    ". This applies to new and existing conversations. Use `/model <name>` to change."

/-- Outcome oracle for a call into the external `agent.chat(message_text)`:
the messages the llama-index agent appended to the shared
`ChatMemoryBuffer`, and either the reply string or the raised exception
(modelled by its message — `chat` catches bare `Exception`, so the
constructor of the exception is irrelevant). -/
structure AgentChatOutcome where
  appended : List ChatMessage
  result : Except String String

/-- The fixed reply when no agent could be initialised. -/
def troubleMessage : String :=
  "I\x27m having trouble with my systems for this conversation. Please try again later."

/-- The fixed reply when `agent.chat` raises. -/
def processingErrorMessage : String :=
  "I encountered an error processing your message. Please try again."

/-- Method `ChatAgent.chat(conversation_id, user_id, message_text)`.

When `_get_or_create_agent` returns no agent, the user turn and the
fixed error reply are appended to the conversation memory directly and
the fixed message is returned. Otherwise `agent.chat` runs (oracle
`outcome`): it mutates the shared memory object — the buffer stored for
this conversation — by appending `outcome.appended`, and either returns
the reply or raises, in which case the fixed processing-error reply is
returned. `_log_chat_history` only prints and is not modelled (its
`_get_or_create_memory` call finds the buffer that already exists on
every path reaching it, so it has no state effect either). -/
def chat (outcome : AgentChatOutcome) (react_from_llm_ok : Bool)
    (s : ChatAgentState) (conversation_id user_id message_text : String) :
    String × ChatAgentState :=
  match getOrCreateAgent react_from_llm_ok s conversation_id user_id with
  | (none, s1) =>
      let (memory, s2) := getOrCreateMemory s1 conversation_id
      let memory := memory.put { role := .user, content := message_text }
      let memory := memory.put { role := .assistant, content := troubleMessage }
      (troubleMessage,
        { s2 with
            conversation_memory := dset s2.conversation_memory conversation_id memory })
  | (some _, s1) =>
      let (memory, s2) := getOrCreateMemory s1 conversation_id
      let memory :=
        { memory with chat_history := memory.chat_history ++ outcome.appended }
      let s3 :=
        { s2 with
            conversation_memory := dset s2.conversation_memory conversation_id memory }
      match outcome.result with
      | .ok reply => (reply, s3)
      | .error _ => (processingErrorMessage, s3)

/-! ## Web search tool (`functions/search.py`, `models/tavily.py`) -/

/-- The JSON body POSTed to `https://api.tavily.com/search`. An absent
key is `none`; the source only ever sets `include_answer` to `True`. -/
structure TavilyPayload where
  query : String
  include_answer : Bool
  search_depth : Option String
  max_results : Option Int
  topic : Option String
deriving DecidableEq, Repr

/-- Python truthiness of an optional int (`None` and `0` are falsy). -/
def truthyOptInt : Option Int → Bool
  | none => false
  | some n => n ≠ 0

/-- The payload construction of `tavily_search_function` (lines 26-42):
`search_depth` is included when truthy, `max_results` whenever not
`None`, and `topic` only when truthy and not equal (lower-cased) to
`"general"`. -/
def buildTavilyPayload (query : String) (topic : Option String)
    (search_depth : Option String) (max_results : Option Int) : TavilyPayload :=
  { query := query
    include_answer := true
    search_depth := if truthyOpt search_depth then search_depth else none
    max_results := if max_results.isSome then max_results else none
    topic :=
      match topic with
      | some t => if t ≠ "" ∧ pyLower t ≠ "general" then some t else none
      | none => none }

/-- The defaults declared by the tool parameter schema
`TavilySearchParams` (`models/tavily.py`). -/
structure TavilySearchParams where
  query : String
  topic : Option String := some "general"
  search_depth : Option String := some "basic"
  max_results : Option Int := some 3
  days : Option Int := some 7
deriving DecidableEq, Repr

/-- A search result entry as read from the response JSON:
`r.get("title", "N/A")` / `r.get("url", "N/A")`. -/
structure TavilyResult where
  title : Option String
  url : Option String
deriving DecidableEq, Repr

/-- Exceptions that can escape the `try` body of
`tavily_search_function`; every constructor is a subclass of Python's
`Exception`. -/
inductive PyRequestExn
  | httpError (status : Nat)
  | requestException (msg : String)
  | otherException
deriving DecidableEq, Repr

/-- Outcome oracle for the outbound `requests.post` call and the JSON
decode of its body. -/
inductive HttpOutcome
  | success (answer : Option String) (results : List TavilyResult)
  | badJson
  | httpStatus (status : Nat)
  | requestFailed (msg : String)
deriving DecidableEq, Repr

/-- Python `lst[:k]` for the slice bound `max_results or 5`
(`None` and `0` fall back to `5`; a negative bound keeps all but the
last `-k` elements). -/
def pySliceTo {α : Type} (l : List α) (k : Int) : List α :=
  if 0 ≤ k then l.take k.toNat else l.take ((l.length : Int) + k).toNat

/-- The reply string built on a successful search (lines 65-87). -/
def tavilySuccessText (answer : Option String) (results : List TavilyResult)
    (max_results : Option Int) : String :=
  let output_parts : List String :=
    (if truthyOpt answer then ["Answer: " ++ answer.getD ""] else []) ++
    (if results ≠ [] then
      ["\nSources:\n" ++
        String.intercalate "\n"
          ((pySliceTo results (if truthyOptInt max_results then max_results.getD 5 else 5)).map
            (fun r => "- " ++ r.title.getD "N/A" ++ ": " ++ r.url.getD "N/A"))]
     else [])
  if output_parts = [] then
    "No specific answer or results found from Tavily search."
  else String.intercalate "\n\n" output_parts

/-- The `try` body of `tavily_search_function` (lines 46-87): a network
failure surfaces as a `RequestException`; a non-2xx response reaches
`response.raise_for_status()`, which raises `HTTPError` carrying the
status; a malformed body makes `response.json()` raise
(`JSONDecodeError`, a `RequestException` subclass in `requests`); a
well-formed body produces the success text. -/
def tavilyTryBody (outcome : HttpOutcome) (max_results : Option Int) :
    Except PyRequestExn String :=
  match outcome with
  | .requestFailed msg => .error (.requestException msg)
  | .httpStatus status => .error (.httpError status)
  | .badJson => .error (.requestException "Expecting value")
  | .success answer results => .ok (tavilySuccessText answer results max_results)

/-- Function `tavily_search_function(query, topic, search_depth, max_results)`.

`api_key` is `os.getenv("TAVILY_API_KEY")`. The result is
`Except.error` only if an exception escapes the handler chain
`except HTTPError` / `except RequestException` / `except Exception`;
since the last handler catches every Python exception, no constructor of
`PyRequestExn` escapes. The payload built from the arguments is returned
alongside for inspection of what was sent. -/
def tavily_search_function (api_key : Option String) (query : String)
    (topic : Option String) (search_depth : Option String)
    (max_results : Option Int) (outcome : HttpOutcome) :
    Except PyRequestExn String × TavilyPayload :=
  let payload := buildTavilyPayload query topic search_depth max_results
  if api_key.isNone then
    (.ok "Error: TAVILY_API_KEY not found in environment variables.", payload)
  else
    match tavilyTryBody outcome max_results with
    | .ok text => (.ok text, payload)
    | .error e =>
        match e with
        | .httpError status =>
            (.ok ("Error: The search request to Tavily failed with status " ++
               toString status ++ "."), payload)
        | .requestException msg =>
            (.ok ("Error: The search request to Tavily failed: " ++ msg), payload)
        | .otherException =>
            (.ok "Error: An unexpected error occurred while performing the search.",
             payload)

/-! ## Slack transport (`services/slack_service.py`) -/

inductive SlackReqType
  | events_api
  | slash_commands
  | hello
  | disconnect
deriving DecidableEq, Repr

/-- The `event` object of an `events_api` payload; absent keys are
`none`. -/
structure SlackEventPayload where
  event_type : Option String
  user : Option String
  text : String
  channel : Option String
  channel_type : Option String
  ts : Option String
  thread_ts : Option String
  bot_id : Option String
  subtype : Option String
deriving DecidableEq, Repr

/-- A `SocketModeRequest`, with the fields `process_slack_request` reads
for both event and slash-command payloads. -/
structure SocketModeRequest where
  type : SlackReqType
  event : SlackEventPayload
  command : Option String
  slash_user_id : Option String
  slash_channel_id : Option String
  slash_text : String
deriving DecidableEq, Repr

/-- A call made by the transport into the `ChatAgent`. -/
inductive AgentCall
  | chatCall (conversation_id user_id text : String)
  | switchModelCall (user_id model_name : String)
  | currentModelInfoCall (user_id : String)
deriving DecidableEq, Repr

def AgentCall.isChatCall : AgentCall → Bool
  | .chatCall _ _ _ => true
  | _ => false

/-- Method `SlackService.process_slack_request(client, req)`, observed through
the `ChatAgent` calls it makes (Slack acknowledgments, `print`s and
`chat_postMessage` / `chat_postEphemeral` deliveries are transport I/O
with no agent effect). `bot_user_id` / `bot_id` come from `auth_test`;
`known_conversations` is the key set of `chat_agent.conversation_memory`.

Structure mirrors the source: everything — including the
`elif req.type == "slash_commands"` and `elif req.type == "hello"` arms,
which sit at the end of the `if should_process ...` chain — is nested
inside `if req.type == "events_api":`. -/
def process_slack_request (bot_user_id : String) (bot_id : Option String)
    (known_conversations : List String) (req : SocketModeRequest) : List AgentCall :=
  if req.type = .events_api then
    let ep := req.event
    let user_id := ep.user
    let text := ep.text.trim
    let channel_id := ep.channel
    let channel_type := ep.channel_type
    let message_ts := ep.ts
    let thread_ts_from_event := ep.thread_ts
    if truthyOpt ep.bot_id ∨ (truthyOpt bot_id ∧ ep.bot_id = bot_id) ∨
        user_id = some bot_user_id then []
    else if ¬ (truthyOpt user_id ∧ truthyOpt channel_id ∧ truthyOpt message_ts) then []
    else if ep.event_type = some "message" ∧ ¬ truthyOpt channel_type then []
    else
      let conversation_thread_ts :=
        if truthyOpt thread_ts_from_event then thread_ts_from_event.getD ""
        else message_ts.getD ""
      let conversation_id := channel_id.getD "" ++ "_" ++ conversation_thread_ts
      let processed :=
        if ep.event_type = some "app_mention" then
          (true, (text.replace ("<@" ++ bot_user_id ++ ">") "").trim)
        else if ep.event_type = some "message" ∧ ep.subtype = none then
          if channel_type = some "im" then (true, text)
          else if truthyOpt thread_ts_from_event ∧
              known_conversations.contains conversation_id then (true, text)
          else (false, text)
        else (false, text)
      let should_process := processed.1
      let actual_text_to_agent := processed.2
      if should_process ∧ actual_text_to_agent ≠ "" then
        [.chatCall conversation_id (user_id.getD "") actual_text_to_agent]
      else if should_process ∧ actual_text_to_agent = "" then []
      else if req.type = .slash_commands then
        let command := req.command
        let user_id_slash := req.slash_user_id
        let channel_id_slash := req.slash_channel_id
        let text_payload := pyLower req.slash_text.trim
        if ¬ (truthyOpt command ∧ truthyOpt user_id_slash ∧
            truthyOpt channel_id_slash) then []
        else if command = some "/model" then
          if ["openai", "gemini"].contains text_payload then
            [.switchModelCall (user_id_slash.getD "") text_payload]
          else []
        else if command = some "/currentmodel" then
          [.currentModelInfoCall (user_id_slash.getD "")]
        else []
      else if req.type = .hello then []
      else []
  else []

/-! ## Helper lemmas -/

/-- The recorded history of a conversation (empty when the conversation
has no buffer yet). -/
def memHistory (s : ChatAgentState) (conversation_id : String) : List ChatMessage :=
  ((dget s.conversation_memory conversation_id).map ChatMemoryBuffer.chat_history).getD []

/-- Resolution via `_get_llm_for_user` touches only the per-user llm and name caches. -/
theorem getLlmForUser_preserves (s : ChatAgentState) (uid : String) :
    ((getLlmForUser s uid).2.2).conversation_memory = s.conversation_memory ∧
    ((getLlmForUser s uid).2.2).conversation_agent_details = s.conversation_agent_details ∧
    ((getLlmForUser s uid).2.2).next_alloc_id = s.next_alloc_id ∧
    ((getLlmForUser s uid).2.2).default_model_name = s.default_model_name := by
  simp only [getLlmForUser]
  split
  · split
    · exact ⟨rfl, rfl, rfl, rfl⟩
    · split
      · split
        · exact ⟨rfl, rfl, rfl, rfl⟩
        · exact ⟨rfl, rfl, rfl, rfl⟩
      · exact ⟨rfl, rfl, rfl, rfl⟩
  · exact ⟨rfl, rfl, rfl, rfl⟩

theorem getOrCreateMemory_found (s : ChatAgentState) (cid : String)
    (m : ChatMemoryBuffer) (h : dget s.conversation_memory cid = some m) :
    getOrCreateMemory s cid = (m, s) := by
  unfold getOrCreateMemory
  rw [h]

/-- The buffer handed out by `_get_or_create_memory` carries the
conversation's recorded history, and the call leaves that history
unchanged. -/
theorem getOrCreateMemory_history (s : ChatAgentState) (cid : String) :
    ((getOrCreateMemory s cid).1).chat_history = memHistory s cid ∧
    memHistory ((getOrCreateMemory s cid).2) cid = memHistory s cid := by
  unfold getOrCreateMemory memHistory
  cases h : dget s.conversation_memory cid <;> simp [h, dget_dset_self]

/-- Memory creation via `_get_or_create_memory` never touches the agent-details map. -/
theorem getOrCreateMemory_details (s : ChatAgentState) (cid : String) :
    ((getOrCreateMemory s cid).2).conversation_agent_details =
      s.conversation_agent_details := by
  unfold getOrCreateMemory
  cases h : dget s.conversation_memory cid <;> rfl

/-- Agent lookup via `_get_or_create_agent` never changes a conversation's recorded
history (at most it creates an empty buffer). -/
theorem getOrCreateAgent_memHistory (r : Bool) (s : ChatAgentState)
    (cid uid : String) :
    memHistory ((getOrCreateAgent r s cid uid).2) cid = memHistory s cid := by
  have hmem : memHistory ((getLlmForUser s uid).2.2) cid = memHistory s cid := by
    unfold memHistory
    rw [(getLlmForUser_preserves s uid).1]
  unfold getOrCreateAgent
  rcases h : getLlmForUser s uid with ⟨llm0, n, s1⟩
  have hs1 : memHistory s1 cid = memHistory s cid := by
    rw [← hmem, h]
  cases llm0 with
  | none => exact hs1
  | some user_llm =>
    dsimp only
    split
    · exact hs1
    · rcases h2 : getOrCreateMemory s1 cid with ⟨m2, s2⟩
      have hs2 : memHistory s2 cid = memHistory s1 cid := by
        have := (getOrCreateMemory_history s1 cid).2
        rw [h2] at this
        exact this
      cases r with
      | true => simpa [memHistory] using hs2.trans hs1
      | false => exact hs2.trans hs1

/-! ## Claims -/

/-- C10 counterexample: calling the web-search tool with a query and no
topic override produces an outbound payload whose `topic` key is absent
(`none`) — it does not carry `topic = "general"` as the claim states. -/
theorem C10_counterexample_topic_key_absent :
    (buildTavilyPayload "lean theorem prover" none (some "basic") (some 3)).topic = none ∧
    ((buildTavilyPayload "lean theorem prover" none (some "basic") (some 3)).topic
       == some "general") = false := by
  decide

/-- C10 amended: for every web-search invocation where the caller
supplies a query but no topic override (and likewise when the schema
default `"general"` is passed explicitly), the outbound request payload
omits the `topic` key entirely, relying on the API-side default; it
never carries `topic = "general"`. -/
theorem C10_amended_topic_omitted (query : String) (search_depth : Option String)
    (max_results : Option Int) :
    (buildTavilyPayload query none search_depth max_results).topic = none ∧
    (buildTavilyPayload query (some "general") search_depth max_results).topic = none := by
  constructor
  · rfl
  · simp only [buildTavilyPayload]
    decide

/-- C7: for every input to the web-search tool function and every
outcome of the outbound HTTP request (missing API key, HTTP error
status, malformed body, network failure, or success),
`tavily_search_function` returns a string result — no exception escapes
its handler chain to the caller. -/
theorem C7_search_never_propagates (api_key : Option String) (query : String)
    (topic search_depth : Option String) (max_results : Option Int)
    (outcome : HttpOutcome) :
    ∃ text : String,
      (tavily_search_function api_key query topic search_depth max_results outcome).1 =
        Except.ok text := by
  unfold tavily_search_function tavilyTryBody
  cases hk : api_key.isNone <;> cases outcome <;> simp

/-- C6: for every conversation, user and message, and any behaviour of
the underlying reasoning agent — including `agent.chat` raising an
arbitrary exception — `chat` returns a string on every path: the fixed
trouble message when no agent could be initialised, the fixed
processing-error message when the agent raised, and the agent's reply
otherwise; nothing propagates to the transport layer. -/
theorem C6_chat_catches_agent_failures (appended : List ChatMessage)
    (res : Except String String) (react_from_llm_ok : Bool) (s : ChatAgentState)
    (conversation_id user_id message_text : String) :
    (chat ⟨appended, res⟩ react_from_llm_ok s conversation_id user_id message_text).1 =
        troubleMessage ∨
    (∃ e, res = Except.error e ∧
      (chat ⟨appended, res⟩ react_from_llm_ok s conversation_id user_id message_text).1 =
        processingErrorMessage) ∨
    (∃ reply, res = Except.ok reply ∧
      (chat ⟨appended, res⟩ react_from_llm_ok s conversation_id user_id message_text).1 =
        reply) := by
  unfold chat
  rcases h : getOrCreateAgent react_from_llm_ok s conversation_id user_id with ⟨ag, s1⟩
  cases ag with
  | none => left; rfl
  | some a =>
      cases res with
      | ok reply => right; right; exact ⟨reply, rfl, by simp⟩
      | error e => right; left; exact ⟨e, rfl, by simp⟩

/-- Demo provider for the model-switch scenarios: both backends have
credentials configured and both constructors succeed. -/
def demoProvider : LLMProvider :=
  { openai_api_key := some "sk-demo"
    google_application_credentials := some "/creds/sa.json"
    openai_init_ok := true
    gemini_init_ok := true }

/-- State of a fresh `ChatAgent` (default model `"gemini"`) after it
resolved the default model once for user `"U1"` — e.g. during the
user's first chat message. -/
def demoStateCachedDefault : ChatAgentState :=
  (getLlmForUser (ChatAgentState.init demoProvider "gemini") "U1").2.2

/-- C1: the handle/preference invariant fails. Starting from a user
whose cached handle was constructed for the default `"gemini"`,
`switch_model(U1, "openai")` reports success and stores preference
`"openai"`, yet the cached `ModelHandle` is still the one constructed
for `"gemini"`; the next `_get_llm_for_user` observes this divergence
but returns the stale handle (labelled `"openai"`) without
re-resolving — its mismatch guard compares the stored name against a
value just read from the same dict, so it can never fire. -/
theorem C1_handle_and_preference_desynchronize :
    (switch_model demoStateCachedDefault "U1" "openai").1 =
      "Your preferred model is now Openai. This will apply to new conversations and update existing ones on next use." ∧
    dget (switch_model demoStateCachedDefault "U1" "openai").2.user_active_model_name "U1" =
      some "openai" ∧
    dget (switch_model demoStateCachedDefault "U1" "openai").2.user_active_llm "U1" =
      some LLM.gemini ∧
    LLM.gemini.constructedFor = "gemini" ∧
    demoProvider.get_llm "openai" = some LLM.openai ∧
    (getLlmForUser (switch_model demoStateCachedDefault "U1" "openai").2 "U1").1 =
      some LLM.gemini := by
  decide

/-- C2: a failed switch is not rolled back. With a cached working
handle, `switch_model(U1, "nonexistent")` never attempts to resolve
`"nonexistent"` (which would fail: `get_llm` returns `None` for it);
it reports success, leaves the preference at `"nonexistent"`, and
`get_current_model_info` changes from naming Gemini to naming
Nonexistent — the opposite of the claimed rollback. -/
theorem C2_failed_switch_not_rolled_back :
    demoProvider.get_llm "nonexistent" = none ∧
    (switch_model demoStateCachedDefault "U1" "nonexistent").1 =
      "Your preferred model is now Nonexistent. This will apply to new conversations and update existing ones on next use." ∧
    dget (switch_model demoStateCachedDefault "U1" "nonexistent").2.user_active_model_name "U1" =
      some "nonexistent" ∧
    get_current_model_info (switch_model demoStateCachedDefault "U1" "nonexistent").2 "U1" =
      "Your preferred model is Nonexistent. This applies to new and existing conversations. Use `/model <name>` to change." ∧
    get_current_model_info demoStateCachedDefault "U1" =
      "Your preferred model is Gemini. This applies to new and existing conversations. Use `/model <name>` to change." := by
  decide

/-- Whether a recorded turn is a user turn. -/
def ChatMessage.isUserTurn (m : ChatMessage) : Bool :=
  match m.role with
  | .user => true
  | .assistant => false

/-- C3: whenever agent/binding resolution fails (for any reason —
no model could be loaded, or agent construction raised), `chat` appends
the turn `(user, text)` followed by `(assistant, troubleMessage)` to the
conversation's history and returns exactly the fixed trouble string; in
particular the most recent user turn in the resulting history is the
user's literal input text. -/
theorem C3_failure_path_appends_turns_and_apologizes (outcome : AgentChatOutcome)
    (react_from_llm_ok : Bool) (s : ChatAgentState)
    (conversation_id user_id message_text : String)
    (h : (getOrCreateAgent react_from_llm_ok s conversation_id user_id).1 = none) :
    (chat outcome react_from_llm_ok s conversation_id user_id message_text).1 =
      "I\x27m having trouble with my systems for this conversation. Please try again later." ∧
    memHistory (chat outcome react_from_llm_ok s conversation_id user_id message_text).2
        conversation_id =
      memHistory s conversation_id ++
        [{ role := .user, content := message_text },
         { role := .assistant, content := troubleMessage }] ∧
    ((memHistory (chat outcome react_from_llm_ok s conversation_id user_id message_text).2
          conversation_id).filter ChatMessage.isUserTurn).getLast? =
      some { role := .user, content := message_text } := by
  rcases h2 : getOrCreateAgent react_from_llm_ok s conversation_id user_id with ⟨ag, s1⟩
  have hs1 : memHistory s1 conversation_id = memHistory s conversation_id := by
    have := getOrCreateAgent_memHistory react_from_llm_ok s conversation_id user_id
    rw [h2] at this
    exact this
  rw [h2] at h
  cases ag with
  | some a => simp at h
  | none =>
    rcases h3 : getOrCreateMemory s1 conversation_id with ⟨m2, s2⟩
    have hh : m2.chat_history = memHistory s1 conversation_id := by
      have := (getOrCreateMemory_history s1 conversation_id).1
      rw [h3] at this
      exact this
    have hput :
        ((m2.put { role := .user, content := message_text }).put
            { role := .assistant, content := troubleMessage }).chat_history =
          memHistory s conversation_id ++
            [{ role := .user, content := message_text },
             { role := .assistant, content := troubleMessage }] := by
      simp [ChatMemoryBuffer.put, hh, hs1, List.append_assoc]
    have hc : chat outcome react_from_llm_ok s conversation_id user_id message_text =
        (troubleMessage,
          { s2 with
              conversation_memory :=
                dset s2.conversation_memory conversation_id
                  ((m2.put { role := .user, content := message_text }).put
                    { role := .assistant, content := troubleMessage }) }) := by
      unfold chat
      rw [h2]
      dsimp only
      rw [h3]
    have hmem :
        memHistory
          { s2 with
              conversation_memory :=
                dset s2.conversation_memory conversation_id
                  ((m2.put { role := .user, content := message_text }).put
                    { role := .assistant, content := troubleMessage }) }
          conversation_id =
        ((m2.put { role := .user, content := message_text }).put
            { role := .assistant, content := troubleMessage }).chat_history := by
      unfold memHistory
      rw [show ({ s2 with
              conversation_memory :=
                dset s2.conversation_memory conversation_id
                  ((m2.put { role := .user, content := message_text }).put
                    { role := .assistant, content := troubleMessage }) } :
            ChatAgentState).conversation_memory =
          dset s2.conversation_memory conversation_id
            ((m2.put { role := .user, content := message_text }).put
              { role := .assistant, content := troubleMessage }) from rfl]
      rw [dget_dset_self]
      rfl
    rw [hc]
    refine ⟨rfl, ?_, ?_⟩
    · rw [hmem, hput]
    · rw [hmem, hput, List.filter_append]
      simp [ChatMessage.isUserTurn, List.getLast?_concat]

/-- A provider with no credentials at all: every `get_llm` call fails. -/
def noBackendProvider : LLMProvider :=
  { openai_api_key := none
    google_application_credentials := none
    openai_init_ok := true
    gemini_init_ok := true }

/-- A fresh agent wired to the credential-less provider. -/
def noBackendState : ChatAgentState :=
  ChatAgentState.init noBackendProvider "gemini"

/-- Witness for C3 at a concrete input: with no backend available, the
agent cannot be initialised and the error path runs. -/
theorem C3_failure_path_appends_turns_and_apologizes_witness :
    (chat ⟨[], Except.ok "unused"⟩ true noBackendState "C42_100" "U1" "hello there").1 =
      "I\x27m having trouble with my systems for this conversation. Please try again later." ∧
    memHistory (chat ⟨[], Except.ok "unused"⟩ true noBackendState "C42_100" "U1" "hello there").2
        "C42_100" =
      memHistory noBackendState "C42_100" ++
        [{ role := .user, content := "hello there" },
         { role := .assistant, content := troubleMessage }] ∧
    ((memHistory (chat ⟨[], Except.ok "unused"⟩ true noBackendState "C42_100" "U1" "hello there").2
          "C42_100").filter ChatMessage.isUserTurn).getLast? =
      some { role := .user, content := "hello there" } :=
  C3_failure_path_appends_turns_and_apologizes ⟨[], Except.ok "unused"⟩ true
    noBackendState "C42_100" "U1" "hello there" (by decide)

/-- C4: in the re-resolution path for a user whose desired model differs
from the process default, failure to resolve the desired name makes the
registry try the default; on success that handle is cached and returned
with the default's name recorded (not the originally desired one) both
as result and as the user's cached state; the call returns no handle
exactly when the default fails as well. -/
theorem C4_fallback_records_actual_name (s : ChatAgentState) (user_id desired : String)
    (h1 : dget s.user_active_model_name user_id = some desired)
    (h2 : desired ≠ s.default_model_name)
    (h3 : dget s.user_active_llm user_id = none)
    (h4 : s.llm_provider.get_llm desired = none) :
    (∀ l : LLM, s.llm_provider.get_llm s.default_model_name = some l →
       (getLlmForUser s user_id).1 = some l ∧
       (getLlmForUser s user_id).2.1 = s.default_model_name ∧
       dget ((getLlmForUser s user_id).2.2).user_active_llm user_id = some l ∧
       dget ((getLlmForUser s user_id).2.2).user_active_model_name user_id =
         some s.default_model_name) ∧
    ((getLlmForUser s user_id).1 = none ↔
       s.llm_provider.get_llm s.default_model_name = none) := by
  have hpref : (dget s.user_active_model_name user_id).getD s.default_model_name = desired := by
    rw [h1]
    rfl
  have hglm : getLlmForUser s user_id =
      if s.llm_provider.get_llm desired |>.isSome then
        getLlmForUser s user_id
      else
        match s.llm_provider.get_llm desired with
        | some llm =>
            (some llm, desired,
              { s with
                  user_active_llm := dset s.user_active_llm user_id llm
                  user_active_model_name := dset s.user_active_model_name user_id desired })
        | none =>
            match s.llm_provider.get_llm s.default_model_name with
            | some llm =>
                (some llm, s.default_model_name,
                  { s with
                      user_active_llm := dset s.user_active_llm user_id llm
                      user_active_model_name :=
                        dset s.user_active_model_name user_id s.default_model_name })
            | none => (none, s.default_model_name, s) := by
    rw [if_neg (by rw [h4]; simp)]
    unfold getLlmForUser
    rw [hpref, h3, h1]
    rw [if_pos (by simp)]
    rw [h4]
    rw [if_pos h2]
  rw [hglm, if_neg (by rw [h4]; simp), h4]
  constructor
  · intro l hl
    rw [hl]
    exact ⟨rfl, rfl, dget_dset_self _ _ _, dget_dset_self _ _ _⟩
  · cases hd : s.llm_provider.get_llm s.default_model_name <;> simp

/-- Provider where only Gemini (the default) is configured. -/
def geminiOnlyProvider : LLMProvider :=
  { openai_api_key := none
    google_application_credentials := some "/creds/sa.json"
    openai_init_ok := true
    gemini_init_ok := true }

/-- A user preferring `"openai"` (unavailable) with no cached handle. -/
def fallbackState : ChatAgentState :=
  { ChatAgentState.init geminiOnlyProvider "gemini" with
      user_active_model_name := [("U1", "openai")] }

/-- Witness for C4 at a concrete input: `"openai"` cannot resolve, the
default `"gemini"` can, and the fallback caches the default's handle
under the default's name. -/
theorem C4_fallback_records_actual_name_witness :
    (getLlmForUser fallbackState "U1").1 = some LLM.gemini ∧
    (getLlmForUser fallbackState "U1").2.1 = fallbackState.default_model_name ∧
    dget ((getLlmForUser fallbackState "U1").2.2).user_active_llm "U1" = some LLM.gemini ∧
    dget ((getLlmForUser fallbackState "U1").2.2).user_active_model_name "U1" =
      some fallbackState.default_model_name :=
  (C4_fallback_records_actual_name fallbackState "U1" "openai"
      (by decide) (by decide) (by decide) (by decide)).1 LLM.gemini (by decide)

/-- C5: when a bound-name mismatch (e.g. after a model switch) forces an
agent rebuild for a conversation that already has a memory buffer, the
existing `ChatMemoryBuffer` is returned as-is (created at most once per
conversation id) and the new `ReActAgent` is constructed with that very
same buffer object (`memoryId` = its `allocId`), so every turn recorded
before the rebuild is still in the buffer the new agent sees: history is
shared by reference, not owned by the binding. -/
theorem C5_rebuild_reuses_memory_object (s : ChatAgentState) (cid uid : String)
    (m : ChatMemoryBuffer) (a0 : ReActAgent) (n0 : String) (l : LLM) (n : String)
    (s1 : ChatAgentState)
    (hm : dget s.conversation_memory cid = some m)
    (hb : dget s.conversation_agent_details cid = some (a0, n0))
    (hr : getLlmForUser s uid = (some l, n, s1))
    (hne : n0 ≠ n) :
    getOrCreateMemory s cid = (m, s) ∧
    getOrCreateAgent true s cid uid =
      (some { llm := l, memoryId := m.allocId },
        { s1 with
            conversation_agent_details :=
              dset s1.conversation_agent_details cid
                ({ llm := l, memoryId := m.allocId }, n) }) ∧
    dget ((getOrCreateAgent true s cid uid).2).conversation_memory cid = some m := by
  have hpres := getLlmForUser_preserves s uid
  rw [hr] at hpres
  obtain ⟨hcm, hcd, _, _⟩ := hpres
  have hm1 : dget s1.conversation_memory cid = some m := by
    rw [hcm]; exact hm
  have hb1 : dget s1.conversation_agent_details cid = some (a0, n0) := by
    rw [hcd]; exact hb
  have hme : getOrCreateMemory s1 cid = (m, s1) := getOrCreateMemory_found _ _ _ hm1
  have hag : getOrCreateAgent true s cid uid =
      (some { llm := l, memoryId := m.allocId },
        { s1 with
            conversation_agent_details :=
              dset s1.conversation_agent_details cid
                ({ llm := l, memoryId := m.allocId }, n) }) := by
    unfold getOrCreateAgent
    rw [hr]
    dsimp only
    rw [hb1]
    dsimp only
    rw [if_pos hne]
    dsimp only
    rw [hme]
    rfl
  refine ⟨getOrCreateMemory_found _ _ _ hm, hag, ?_⟩
  rw [hag]
  exact hm1

/-- The conversation memory shared by the C5/C9 witness scenarios, with
two turns already recorded. -/
def demoMemory : ChatMemoryBuffer :=
  { allocId := 0
    token_limit := 3900
    chat_history :=
      [{ role := .user, content := "hi" }, { role := .assistant, content := "hello" }] }

/-- A state whose conversation `"C42_100"` is bound to an agent built
for `"openai"`, while user `"U1"` (no preference entry) resolves to the
default `"gemini"` — the mismatch that forces a rebuild. -/
def demoBoundState : ChatAgentState :=
  { ChatAgentState.init demoProvider "gemini" with
      conversation_memory := [("C42_100", demoMemory)]
      conversation_agent_details :=
        [("C42_100", ({ llm := LLM.openai, memoryId := 0 }, "openai"))]
      next_alloc_id := 1 }

/-- The state after `_get_llm_for_user` resolved `"gemini"` for `"U1"`
in the witness scenario. -/
def demoBoundState1 : ChatAgentState :=
  (getLlmForUser demoBoundState "U1").2.2

/-- Witness for C5 at a concrete input. -/
theorem C5_rebuild_reuses_memory_object_witness :
    getOrCreateMemory demoBoundState "C42_100" = (demoMemory, demoBoundState) ∧
    getOrCreateAgent true demoBoundState "C42_100" "U1" =
      (some { llm := LLM.gemini, memoryId := demoMemory.allocId },
        { demoBoundState1 with
            conversation_agent_details :=
              dset demoBoundState1.conversation_agent_details "C42_100"
                ({ llm := LLM.gemini, memoryId := demoMemory.allocId }, "gemini") }) ∧
    dget ((getOrCreateAgent true demoBoundState "C42_100" "U1").2).conversation_memory
        "C42_100" = some demoMemory :=
  C5_rebuild_reuses_memory_object demoBoundState "C42_100" "U1" demoMemory
    { llm := LLM.openai, memoryId := 0 } "openai" LLM.gemini "gemini" demoBoundState1
    (by decide) (by decide) (by decide) (by decide)

/-- C9: when a rebuild is triggered by a model-name mismatch and the
construction of the new `ReActAgent` fails, the previously stored
binding for that conversation is neither removed nor overwritten — the
entry is replaced only after a successful construction — and the failure
is reported to the caller as an absent agent. -/
theorem C9_failed_rebuild_keeps_old_binding (s : ChatAgentState) (cid uid : String)
    (a0 : ReActAgent) (n0 : String) (l : LLM) (n : String) (s1 : ChatAgentState)
    (hb : dget s.conversation_agent_details cid = some (a0, n0))
    (hr : getLlmForUser s uid = (some l, n, s1))
    (hne : n0 ≠ n) :
    (getOrCreateAgent false s cid uid).1 = none ∧
    dget ((getOrCreateAgent false s cid uid).2).conversation_agent_details cid =
      some (a0, n0) := by
  have hpres := getLlmForUser_preserves s uid
  rw [hr] at hpres
  obtain ⟨hcm, hcd, _, _⟩ := hpres
  have hb1 : dget s1.conversation_agent_details cid = some (a0, n0) := by
    rw [hcd]; exact hb
  have hag : getOrCreateAgent false s cid uid = (none, (getOrCreateMemory s1 cid).2) := by
    unfold getOrCreateAgent
    rw [hr]
    dsimp only
    rw [hb1]
    dsimp only
    rw [if_pos hne]
    rcases hoc : getOrCreateMemory s1 cid with ⟨m2, s2⟩
    rfl
  rw [hag]
  refine ⟨rfl, ?_⟩
  rw [getOrCreateMemory_details s1 cid]
  exact hb1

/-- Witness for C9 at a concrete input: same mismatch scenario as the
C5 witness, but `ReActAgent.from_llm` raises. -/
theorem C9_failed_rebuild_keeps_old_binding_witness :
    (getOrCreateAgent false demoBoundState "C42_100" "U1").1 = none ∧
    dget ((getOrCreateAgent false demoBoundState "C42_100" "U1").2).conversation_agent_details
        "C42_100" = some ({ llm := LLM.openai, memoryId := 0 }, "openai") :=
  C9_failed_rebuild_keeps_old_binding demoBoundState "C42_100" "U1"
    { llm := LLM.openai, memoryId := 0 } "openai" LLM.gemini "gemini" demoBoundState1
    (by decide) (by decide) (by decide)

set_option maxHeartbeats 1600000 in
/-- C8: for every incoming `SocketModeRequest`, the slash-command branch
never executes: it is an `elif` arm nested inside the branch requiring
`req.type == "events_api"` while itself requiring
`req.type == "slash_commands"`, so the transport only ever calls
`chat` — it never invokes `switch_model` or `get_current_model_info`. -/
theorem C8_slash_commands_unreachable (bot_user_id : String) (bot_id : Option String)
    (known_conversations : List String) (req : SocketModeRequest) :
    (process_slack_request bot_user_id bot_id known_conversations req).all
      AgentCall.isChatCall = true := by
  obtain ⟨ty, ep, cmd, suid, scid, stext⟩ := req
  cases ty <;>
    simp only [process_slack_request] <;>
    (repeat' split) <;>
    (try simp [AgentCall.isChatCall]) <;>
    (intro x; intros; subst_vars; rfl)

end CipherPol
